import Mathlib

/-!
Verification development for the petster repository.

The definitions below are a shallow embedding of the code that serves
`POST /api/generate-profile` (`vite.config.ts` together with
`server/api.ts`), of the swipe-deck state logic of
`src/components/SwipeCards.tsx`, and of the compatibility scorer of the
backend recommendation service.  JavaScript strings become `String`,
JavaScript arrays become `List`, numbers that the claims touch become
`Int`/`Nat`, `undefined`/`null`-able values become `Option`, and code
that can throw becomes `Except String`.
-/

/-- Model of a JavaScript JSON value.  Numbers are restricted to
integers, which covers every value the verified claims mention. -/
inductive Json where
  | null : Json
  | bool (b : Bool) : Json
  | num (n : Int) : Json
  | str (s : String) : Json
  | arr (elems : List Json) : Json
  | obj (fields : List (String × Json)) : Json

/-- Escape of a single character inside a JSON string literal, as
performed by `JSON.stringify`: the quote, the backslash and the common
control characters are escaped, all other characters pass through. -/
def jsonEscapeChar (c : Char) : String :=
  if c = '"' then "\\\""
  else if c = '\\' then "\\\\"
  else if c = '\n' then "\\n"
  else if c = '\r' then "\\r"
  else if c = '\t' then "\\t"
  else String.singleton c

/-- String-content escape of `JSON.stringify`. -/
def jsonEscape (s : String) : String :=
  String.join (s.data.map jsonEscapeChar)

mutual

/-- Model of `JSON.stringify` on the values of `Json`: members are
joined with a comma and no extra whitespace, exactly as the JavaScript
builtin serializes them. -/
def Json.stringify : Json → String
  | .null => "null"
  | .bool true => "true"
  | .bool false => "false"
  | .num n => toString n
  | .str s => "\"" ++ jsonEscape s ++ "\""
  | .arr elems => "[" ++ stringifyElems elems ++ "]"
  | .obj fields => "\x7b" ++ stringifyFields fields ++ "\x7d"

/-- Serialization of the element list of a JSON array. -/
def stringifyElems : List Json → String
  | [] => ""
  | [j] => Json.stringify j
  | j :: rest => Json.stringify j ++ "," ++ stringifyElems rest

/-- Serialization of the field list of a JSON object. -/
def stringifyFields : List (String × Json) → String
  | [] => ""
  | [(k, v)] => "\"" ++ jsonEscape k ++ "\":" ++ Json.stringify v
  | (k, v) :: rest =>
      "\"" ++ jsonEscape k ++ "\":" ++ Json.stringify v ++ "," ++ stringifyFields rest

end

/-- Top-level key list of a JSON value: the keys of an object, `[]` for
every other value. -/
def Json.keys : Json → List String
  | .obj fields => fields.map Prod.fst
  | _ => []

/-- Model of `Array.prototype.join(sep)`. -/
def jsJoin (sep : String) : List String → String
  | [] => ""
  | [x] => x
  | x :: rest => x ++ sep ++ jsJoin sep rest

/-- Model of the JavaScript expression `s || "None"`: the empty string
is falsy, so it is replaced by the literal text `None`. -/
def jsOrNone (s : String) : String :=
  if s = "" then "None" else s

/-- Rendering of the JavaScript expression `${l[i]}` for a numeric
array: an out-of-range index yields `undefined`. -/
def jsNumAt (l : List Int) (i : Nat) : String :=
  match l[i]? with
  | some n => toString n
  | none => "undefined"

/-- Rendering of the JavaScript expression `${labels[l[i]]}`: a missing
or out-of-range index at either level yields `undefined`. -/
def jsLabelAt (labels : List String) (l : List Int) (i : Nat) : String :=
  match l[i]? with
  | none => "undefined"
  | some n =>
      if n < 0 then "undefined"
      else
        match labels[n.toNat]? with
        | some lab => lab
        | none => "undefined"

/-- The string `t` occurs contiguously inside `s`. -/
def containsSubstr (s t : String) : Prop :=
  t.data <:+: s.data

theorem cs_self (s : String) : containsSubstr s s :=
  List.infix_refl s.data

theorem cs_left (a : String) {b t : String} (h : containsSubstr b t) :
    containsSubstr (a ++ b) t :=
  h.trans (List.suffix_append a.data b.data).isInfix

theorem cs_right (b : String) {a t : String} (h : containsSubstr a t) :
    containsSubstr (a ++ b) t :=
  h.trans (List.prefix_append a.data b.data).isInfix

theorem cs_trans {s u t : String} (h1 : containsSubstr s u)
    (h2 : containsSubstr u t) : containsSubstr s t :=
  h2.trans h1

/-- A member of a list occurs inside the `jsJoin` of its images. -/
theorem cs_jsJoin (sep : String) (f : α → String) (l : List α) (d : α)
    (hd : d ∈ l) : containsSubstr (jsJoin sep (l.map f)) (f d) := by
  induction l with
  | nil => cases hd
  | cons x rest ih =>
      cases hd with
      | head =>
          cases rest with
          | nil => exact cs_self (f d)
          | cons y t =>
              show containsSubstr (f d ++ sep ++ jsJoin sep ((y :: t).map f)) (f d)
              exact cs_right _ (cs_right _ (cs_self (f d)))
      | tail _ hmem =>
          cases rest with
          | nil => cases hmem
          | cons y t =>
              show containsSubstr (f x ++ sep ++ jsJoin sep ((y :: t).map f)) (f d)
              exact cs_left _ (ih hmem)

/-- Age bucket labels, `AGE_LABELS` in `server/api.ts`. -/
def AGE_LABELS : List String :=
  ["Puppy (0–1 yr)",
   "Young (1–3 yrs)",
   "Adult (3–7 yrs)",
   "Senior (7–10 yrs)",
   "Elderly (10+ yrs)"]

/-- The `SwipedDog` interface of `server/api.ts`. -/
structure SwipedDog where
  name : String
  breed : String
  age : String
  weight : String
  energy : String
  bio : String
deriving DecidableEq

/-- The `preferences` part of the `RequestBody` interface of
`server/api.ts`.  The three fields are JavaScript number arrays; the
claims only exercise integral values, so entries are `Int`. -/
structure Preferences where
  energy : List Int
  weight : List Int
  age : List Int
deriving DecidableEq

/-- The `results` part of the `RequestBody` interface of
`server/api.ts`. -/
structure SwipeResults where
  liked : List SwipedDog
  disliked : List SwipedDog
deriving DecidableEq

/-- The `RequestBody` interface of `server/api.ts`. -/
structure RequestBody where
  preferences : Preferences
  results : SwipeResults
deriving DecidableEq

/-- The rendering `${d.name} (${d.breed}, ${d.age}, ${d.weight},
${d.energy} energy)` of one swiped dog inside the prompt template of
`generateProfile`. -/
def swipedDogEntry (d : SwipedDog) : String :=
  d.name ++ " (" ++ d.breed ++ ", " ++ d.age ++ ", " ++ d.weight ++ ", "
    ++ d.energy ++ " energy)"

/-- Fixed text of the prompt template of `generateProfile`
(`server/api.ts` lines 45 to 47) up to the first interpolation. -/
def promptIntro : String :=
  "You are a dog breed expert and matchmaker. Based on the user\x27s preferences and their swipe behavior on dog profiles, generate a personalized dog owner profile and recommend suitable dogs.\n\nUser Preferences:\n- Energy level range: "

/-- Fixed tail of the prompt template of `generateProfile`
(`server/api.ts` lines 56 to 84), after the last interpolation. -/
def promptInstructions : String :=
  "\n\nBased on this information, provide:\n1. A fun, personalized \"dog owner title\" (e.g., \"The Active Adventurer\", \"The Cozy Companion Seeker\")\n2. A 2-3 sentence profile description of what kind of dog owner they\x27d be\n3. 5 recommended dog breeds with compatibility scores (0-100) and reasons\n4. 12 individual dog profiles with creative names, realistic ages/weights, energy levels, and short personality descriptions. Use breeds from your recommendations. Each dog should feel unique and have a distinct personality.\n\nReturn ONLY valid JSON with this exact structure (no markdown, no code fences):\n\x7b\n  \"ownerTitle\": \"string\",\n  \"ownerProfile\": \"string\",\n  \"recommendedBreeds\": [\n    \x7b\n      \"breed\": \"string\",\n      \"reason\": \"string\",\n      \"compatibility\": number,\n      \"traits\": [\"string\", \"string\", \"string\"]\n    \x7d\n  ],\n  \"dogProfiles\": [\n    \x7b\n      \"name\": \"string\",\n      \"breed\": \"string\",\n      \"age\": \"string (e.g. \x272 yrs\x27)\",\n      \"weight\": \"string (e.g. \x2765 lbs\x27)\",\n      \"energy\": \"string (Low/Medium/High/Very High)\",\n      \"personality\": \"string (2-3 sentences)\"\n    \x7d\n  ]\n\x7d"

/-- The prompt template literal of `generateProfile` (`server/api.ts`
lines 45 to 84) with its interpolations. -/
def buildPrompt (body : RequestBody) : String :=
  promptIntro
    ++ jsNumAt body.preferences.energy 0
    ++ "% – "
    ++ jsNumAt body.preferences.energy 1
    ++ "%\n- Weight range: "
    ++ jsNumAt body.preferences.weight 0
    ++ " – "
    ++ jsNumAt body.preferences.weight 1
    ++ " lbs\n- Age preference: "
    ++ jsLabelAt AGE_LABELS body.preferences.age 0
    ++ " to "
    ++ jsLabelAt AGE_LABELS body.preferences.age 1
    ++ "\n\nSwiping Results:\n"
    ++ "Liked: "
    ++ jsOrNone (jsJoin ", " (body.results.liked.map swipedDogEntry))
    ++ "\nDisliked: "
    ++ jsOrNone (jsJoin ", " (body.results.disliked.map swipedDogEntry))
    ++ promptInstructions

/-- The upstream chat-completion response as `generateProfile` observes
it: the HTTP status, the raw body text read in the error branch, and
the message content `data.choices[0].message.content` extracted in the
success branch (a 2xx reply from the upstream always carries that
envelope, which the code does not re-validate). -/
structure UpstreamResponse where
  status : Nat
  text : String
  content : String
deriving DecidableEq

/-- The `ok` property of a `fetch` response: true exactly for a 2xx
status. -/
def UpstreamResponse.ok (r : UpstreamResponse) : Bool :=
  decide (200 ≤ r.status) && decide (r.status < 300)

/-- Everything `generateProfile` does that is visible to a caller: the
user-message content of the outbound request, the authorization header
it carries, and the returned value or thrown error message. -/
structure GenerateOutcome where
  promptSent : String
  authHeader : String
  result : Except String Json

/-- Model of `generateProfile` (`server/api.ts` lines 42 to 117).  The
`fetch` call and the builtin `JSON.parse` are environment, so the
upstream reply is a parameter and `parseContent` stands for
`JSON.parse` applied to the upstream message content, returning the
parsed value or the thrown error message. -/
def generateProfile (parseContent : String → Except String Json)
    (body : RequestBody) (apiKey : String)
    (upstream : UpstreamResponse) : GenerateOutcome :=
  { promptSent := buildPrompt body,
    authHeader := "Bearer " ++ apiKey,
    result :=
      if upstream.ok then parseContent upstream.content
      else .error ("OpenAI API error: " ++ toString upstream.status ++ " " ++ upstream.text) }

/-- The two uses of the builtin `JSON.parse` in the endpoint, modelled
as parameters: `parseBody` is `JSON.parse` on the raw request body read
by `parseBody`/`JSON.parse` in `vite.config.ts` (yielding a value of
the request type, since `generateProfile` immediately uses it as one),
and `parseContent` is `JSON.parse` on the upstream message content.
An `error` value is the message of the exception the builtin throws. -/
structure JsRuntime where
  parseBody : String → Except String RequestBody
  parseContent : String → Except String Json

/-- One request to `/api/generate-profile` as the middleware of
`vite.config.ts` observes it: HTTP method, raw body text, the value of
`process.env.OPENAI_API_KEY` (`none` models an unset variable), and
the upstream reply the `fetch` inside `generateProfile` would get. -/
structure HandlerInput where
  method : String
  rawBody : String
  envApiKey : Option String
  upstream : UpstreamResponse

/-- The observable outcome of one request: the response status and
body, plus which effects ran (body parse, credential check, outbound
upstream call). -/
structure HandlerOutput where
  status : Nat
  body : String
  bodyParseAttempted : Bool
  credentialChecked : Bool
  upstreamCalled : Bool
deriving DecidableEq

/-- The body `JSON.stringify({ error: msg })` of every error response of
the middleware. -/
def errorBody (msg : String) : String :=
  Json.stringify (Json.obj [("error", Json.str msg)])

/-- Model of the `/api/generate-profile` middleware installed by
`apiPlugin` in `vite.config.ts` (lines 13 to 36): non-POST methods get
405; then the body is parsed, the `OPENAI_API_KEY` credential is
checked (`!apiKey` also rejects the empty string), `generateProfile`
runs, and any thrown error message is returned as a 500 with an
`{error}` body. -/
def apiPluginHandler (rt : JsRuntime) (inp : HandlerInput) : HandlerOutput :=
  if inp.method ≠ "POST" then
    { status := 405, body := errorBody "Method not allowed",
      bodyParseAttempted := false, credentialChecked := false, upstreamCalled := false }
  else
    match rt.parseBody inp.rawBody with
    | .error e =>
        { status := 500, body := errorBody e,
          bodyParseAttempted := true, credentialChecked := false, upstreamCalled := false }
    | .ok body =>
        match inp.envApiKey with
        | none =>
            { status := 500,
              body := errorBody "OPENAI_API_KEY environment variable is not set",
              bodyParseAttempted := true, credentialChecked := true, upstreamCalled := false }
        | some key =>
            if key = "" then
              { status := 500,
                body := errorBody "OPENAI_API_KEY environment variable is not set",
                bodyParseAttempted := true, credentialChecked := true, upstreamCalled := false }
            else
              match (generateProfile rt.parseContent body key inp.upstream).result with
              | .ok j =>
                  { status := 200, body := Json.stringify j,
                    bodyParseAttempted := true, credentialChecked := true, upstreamCalled := true }
              | .error e =>
                  { status := 500, body := errorBody e,
                    bodyParseAttempted := true, credentialChecked := true, upstreamCalled := true }

/-- The `BackendDog` interface of `src/types.ts`, the record each swipe
card shows.  Nullable fields become `Option`; the two numeric fields
are integral in every claim, so they are `Int`. -/
structure BackendDog where
  id : Int
  name : String
  breed : String
  size : String
  age_years : Int
  weight_lbs : Int
  color : String
  description : Option String
  sex : String
  coat_length : String
  is_rescue : Bool
  good_with_cats : Bool
  good_with_kids : Bool
  image_url : Option String
  created_at : String
  updated_at : String
deriving DecidableEq

/-- Swipe direction, the `"left" | "right"` union of
`SwipeCards.tsx`. -/
inductive SwipeDirection where
  | left : SwipeDirection
  | right : SwipeDirection
deriving DecidableEq

/-- `SWIPE_THRESHOLD` of `SwipeCards.tsx`. -/
def SWIPE_THRESHOLD : Nat := 100

/-- The React state of the `SwipeCards` component that the swipe logic
reads and writes: the fetched deck, the index of the current card, the
drag offset and flag, and the two result lists.  The entries of `liked`
and `disliked` are `Option BackendDog` because the code pushes
`dogs[currentIndex]`, which is `undefined` (here `none`) when the index
is out of range.  Animation-only state (`exitDirection`) is omitted. -/
structure SwipeState where
  dogs : List BackendDog
  currentIndex : Nat
  offsetX : Int
  isDragging : Bool
  liked : List (Option BackendDog)
  disliked : List (Option BackendDog)
deriving DecidableEq

/-- The `done` flag of `SwipeCards.tsx` line 50:
`dogs.length > 0 && currentIndex >= dogs.length`. -/
def SwipeState.done (s : SwipeState) : Bool :=
  decide (0 < s.dogs.length) && decide (s.dogs.length ≤ s.currentIndex)

/-- Model of `swipe` (`SwipeCards.tsx` lines 73 to 86).  The updates
the 300 ms timeout defers (index increment, offset reset) are composed
into the same step, since the claims only speak about the settled
state. -/
def swipe (direction : SwipeDirection) (s : SwipeState) : SwipeState :=
  if s.done then s
  else
    match direction with
    | .right =>
        { s with liked := s.liked ++ [s.dogs[s.currentIndex]?],
                 currentIndex := s.currentIndex + 1, offsetX := 0 }
    | .left =>
        { s with disliked := s.disliked ++ [s.dogs[s.currentIndex]?],
                 currentIndex := s.currentIndex + 1, offsetX := 0 }

/-- Model of `handleEnd` (`SwipeCards.tsx` lines 63 to 71): ignore the
event unless a drag is in progress, clear the drag flag, then either
commit a swipe (`Math.abs(offsetX) > SWIPE_THRESHOLD`) or snap the card
back to offset 0. -/
def handleEnd (s : SwipeState) : SwipeState :=
  if s.isDragging = false then s
  else
    let s1 := { s with isDragging := false }
    if SWIPE_THRESHOLD < s.offsetX.natAbs then
      swipe (if 0 < s.offsetX then .right else .left) s1
    else
      { s1 with offsetX := 0 }

/-- A sequence of swipe actions applied in order. -/
def applySwipes (directions : List SwipeDirection) (s : SwipeState) : SwipeState :=
  directions.foldl (fun t d => swipe d t) s

/-- Modelled from the spec: the aggregated preference summary of the
backend recommendation service (`app/services/recommendation.py` in the
architecture listing), which is not part of this repository snapshot.
Spec section 4.1: dominant categorical values, observed numeric
min/max ranges, majority-vote booleans. -/
structure PreferenceSummary where
  breed : String
  size : String
  ageMin : Int
  ageMax : Int
  weightMin : Int
  weightMax : Int
  good_with_cats : Bool
  good_with_kids : Bool
  is_rescue : Bool
deriving DecidableEq

/-- Modelled from the spec: the candidate dog attributes the scorer of
the backend recommendation service reads. -/
structure CandidateDog where
  breed : String
  size : String
  age : Int
  weight : Int
  good_with_cats : Bool
  good_with_kids : Bool
  is_rescue : Bool
deriving DecidableEq

/-- The attributes the scorer compares, per spec section 4.2: breed
match, size match, age-in-range, weight-in-range and the three boolean
flag agreements. -/
inductive ScoreAttr where
  | breed : ScoreAttr
  | size : ScoreAttr
  | age : ScoreAttr
  | weight : ScoreAttr
  | cats : ScoreAttr
  | kids : ScoreAttr
  | rescue : ScoreAttr
deriving DecidableEq

/-- Modelled from the spec: the additive weight of each attribute.
Spec section 4.2 leaves the exact weights an implementation choice;
these nonnegative weights sum to 100. -/
def attrWeight : ScoreAttr → Nat
  | .breed => 30
  | .size => 15
  | .age => 15
  | .weight => 15
  | .cats => 10
  | .kids => 10
  | .rescue => 5

/-- Whether a candidate matches the preference summary on one
attribute. -/
def attrMatches (p : PreferenceSummary) (c : CandidateDog) : ScoreAttr → Bool
  | .breed => c.breed == p.breed
  | .size => c.size == p.size
  | .age => decide (p.ageMin ≤ c.age) && decide (c.age ≤ p.ageMax)
  | .weight => decide (p.weightMin ≤ c.weight) && decide (c.weight ≤ p.weightMax)
  | .cats => c.good_with_cats == p.good_with_cats
  | .kids => c.good_with_kids == p.good_with_kids
  | .rescue => c.is_rescue == p.is_rescue

/-- The attribute list the scorer folds over. -/
def allScoreAttrs : List ScoreAttr :=
  [.breed, .size, .age, .weight, .cats, .kids, .rescue]

/-- Modelled from the spec: the compatibility scorer of the backend
recommendation service (spec section 4.2): an additive weighted match
across attributes, clipped to [0, 100]. -/
def compatibilityScore (p : PreferenceSummary) (c : CandidateDog) : Nat :=
  min 100 (((allScoreAttrs.filter (attrMatches p c)).map attrWeight).sum)

/-- Summing a weight over a filtered list is monotone in the filter. -/
theorem filterSum_mono (w : ScoreAttr → Nat) (f g : ScoreAttr → Bool)
    (h : ∀ a, f a = true → g a = true) (l : List ScoreAttr) :
    ((l.filter f).map w).sum ≤ ((l.filter g).map w).sum := by
  induction l with
  | nil => simp
  | cons x rest ih =>
      by_cases hf : f x = true
      · have hg : g x = true := h x hf
        simp [List.filter, hf, hg]
        exact ih
      · have hf' : f x = false := by
          cases hfx : f x
          · rfl
          · exact absurd hfx hf
        cases hg : g x
        · simp [List.filter, hf', hg]
          exact ih
        · simp [List.filter, hf', hg]
          exact ih.trans (Nat.le_add_left _ _)

/-- The concrete request body used by the spec test case: preferences
`{energy:[20,80], weight:[15,100], age:[0,3]}`, empty liked and
disliked lists. -/
def sampleBody : RequestBody :=
  { preferences := { energy := [20, 80], weight := [15, 100], age := [0, 3] },
    results := { liked := [], disliked := [] } }

/-- The JSON text of `sampleBody`, as a client would send it. -/
def sampleRawBody : String :=
  "\x7b\"preferences\":\x7b\"energy\":[20,80],\"weight\":[15,100],\"age\":[0,3]\x7d,\"results\":\x7b\"liked\":[],\"disliked\":[]\x7d\x7d"

/-- An upstream message content that is a JSON object with a single key
`foo`, which `JSON.parse` accepts. -/
def fooContent : String := "\x7b\"foo\":1\x7d"

/-- The value `JSON.parse` returns on `fooContent`. -/
def fooJson : Json := Json.obj [("foo", Json.num 1)]

/-- An upstream message content with exactly the four profile keys. -/
def profileContent : String :=
  "\x7b\"ownerTitle\":\"T\",\"ownerProfile\":\"P\",\"recommendedBreeds\":[],\"dogProfiles\":[]\x7d"

/-- The value `JSON.parse` returns on `profileContent`. -/
def profileJson : Json :=
  Json.obj [("ownerTitle", Json.str "T"), ("ownerProfile", Json.str "P"),
            ("recommendedBreeds", Json.arr []), ("dogProfiles", Json.arr [])]

/-- A concrete stand-in for the two `JSON.parse` uses that agrees with
the JavaScript builtin on every string the sample requests feed it:
`sampleRawBody` parses to `sampleBody`, `fooContent` and
`profileContent` parse to their values, anything else reports a parse
error. -/
def sampleRuntime : JsRuntime :=
  { parseBody := fun s =>
      if s = sampleRawBody then .ok sampleBody
      else .error "Unexpected end of JSON input",
    parseContent := fun s =>
      if s = profileContent then .ok profileJson
      else if s = fooContent then .ok fooJson
      else .error "Unexpected token \x27n\x27, \"not json\" is not valid JSON" }

/-- C9: every request to `/api/generate-profile` whose method is not
POST receives status 405 with body `{"error":"Method not allowed"}`,
and neither body parsing, nor the credential check, nor the upstream
call happens. -/
theorem method_not_allowed_rejects_early (rt : JsRuntime) (inp : HandlerInput)
    (h : inp.method ≠ "POST") :
    apiPluginHandler rt inp =
      { status := 405, body := errorBody "Method not allowed",
        bodyParseAttempted := false, credentialChecked := false,
        upstreamCalled := false } ∧
    errorBody "Method not allowed" = "\x7b\"error\":\"Method not allowed\"\x7d" := by
  constructor
  · simp [apiPluginHandler, h]
  · rfl

/-- Closed instance of the C9 theorem at a GET request. -/
theorem method_not_allowed_rejects_early_inst :
    apiPluginHandler sampleRuntime
      { method := "GET", rawBody := "", envApiKey := none,
        upstream := { status := 200, text := "", content := "" } } =
      { status := 405, body := errorBody "Method not allowed",
        bodyParseAttempted := false, credentialChecked := false,
        upstreamCalled := false } ∧
    errorBody "Method not allowed" = "\x7b\"error\":\"Method not allowed\"\x7d" :=
  method_not_allowed_rejects_early sampleRuntime _ (by decide)

/-- C1: on a POST request with `OPENAI_API_KEY` unset or empty, no
outbound upstream call is attempted, and whenever the request body
parses the response is a 500 whose error message names the missing
credential. -/
theorem missing_credential_fails_fast (rt : JsRuntime) (inp : HandlerInput)
    (hm : inp.method = "POST")
    (hk : inp.envApiKey = none ∨ inp.envApiKey = some "") :
    (apiPluginHandler rt inp).upstreamCalled = false ∧
    (∀ b, rt.parseBody inp.rawBody = .ok b →
      (apiPluginHandler rt inp).status = 500 ∧
      (apiPluginHandler rt inp).body =
        errorBody "OPENAI_API_KEY environment variable is not set") ∧
    containsSubstr "OPENAI_API_KEY environment variable is not set" "OPENAI_API_KEY" := by
  refine ⟨?_, ?_, ?_⟩
  · cases hpb : rt.parseBody inp.rawBody with
    | error e => simp [apiPluginHandler, hm, hpb]
    | ok b0 =>
        rcases hk with hk | hk <;> simp [apiPluginHandler, hm, hpb, hk]
  · intro b hb
    rcases hk with hk | hk <;> constructor <;> simp [apiPluginHandler, hm, hb, hk]
  · exact cs_right " environment variable is not set" (cs_self "OPENAI_API_KEY")

/-- Closed instance of the C1 theorem: POST with a parsable body and no
key set. -/
theorem missing_credential_fails_fast_inst :
    (apiPluginHandler sampleRuntime
      { method := "POST", rawBody := sampleRawBody, envApiKey := none,
        upstream := { status := 200, text := "", content := fooContent } }).upstreamCalled
        = false ∧
    (apiPluginHandler sampleRuntime
      { method := "POST", rawBody := sampleRawBody, envApiKey := none,
        upstream := { status := 200, text := "", content := fooContent } }).status = 500 := by
  have h := missing_credential_fails_fast sampleRuntime
    { method := "POST", rawBody := sampleRawBody, envApiKey := none,
      upstream := { status := 200, text := "", content := fooContent } }
    rfl (Or.inl rfl)
  exact ⟨h.1, (h.2.1 sampleBody (by simp [sampleRuntime])).1⟩

/-- C3: on a POST request that reaches the upstream and gets a non-2xx
reply, the caller receives a 500 whose error message embeds the
upstream status code and the upstream response body. -/
theorem upstream_error_surfaces_status (rt : JsRuntime) (inp : HandlerInput)
    (b : RequestBody) (k : String)
    (hm : inp.method = "POST") (hb : rt.parseBody inp.rawBody = .ok b)
    (hk : inp.envApiKey = some k) (hk2 : k ≠ "")
    (hu : inp.upstream.ok = false) :
    (apiPluginHandler rt inp).status = 500 ∧
    (apiPluginHandler rt inp).body =
      errorBody ("OpenAI API error: " ++ toString inp.upstream.status ++ " "
        ++ inp.upstream.text) ∧
    containsSubstr
      ("OpenAI API error: " ++ toString inp.upstream.status ++ " " ++ inp.upstream.text)
      (toString inp.upstream.status) ∧
    containsSubstr
      ("OpenAI API error: " ++ toString inp.upstream.status ++ " " ++ inp.upstream.text)
      inp.upstream.text := by
  refine ⟨?_, ?_, ?_, ?_⟩
  · simp [apiPluginHandler, hm, hb, hk, hk2, generateProfile, hu]
  · simp [apiPluginHandler, hm, hb, hk, hk2, generateProfile, hu]
  · exact cs_right _ (cs_right _ (cs_left _ (cs_self _)))
  · exact cs_left _ (cs_self _)

/-- Closed instance of the C3 theorem at an upstream 500 reply. -/
theorem upstream_error_surfaces_status_inst :
    (apiPluginHandler sampleRuntime
      { method := "POST", rawBody := sampleRawBody, envApiKey := some "sk-test",
        upstream := { status := 500, text := "Internal Server Error", content := "" } }).status
      = 500 ∧
    (apiPluginHandler sampleRuntime
      { method := "POST", rawBody := sampleRawBody, envApiKey := some "sk-test",
        upstream := { status := 500, text := "Internal Server Error", content := "" } }).body
      = errorBody "OpenAI API error: 500 Internal Server Error" := by
  have h := upstream_error_surfaces_status sampleRuntime
    { method := "POST", rawBody := sampleRawBody, envApiKey := some "sk-test",
      upstream := { status := 500, text := "Internal Server Error", content := "" } }
    sampleBody "sk-test" rfl (by simp [sampleRuntime]) rfl (by decide) (by decide)
  exact ⟨h.1, h.2.1⟩

/-- C4: on a POST request whose upstream call succeeds and whose
message content parses to the JSON value `j`, the endpoint answers 200
with body exactly the serialization of `j`. -/
theorem upstream_success_returns_parsed_json (rt : JsRuntime) (inp : HandlerInput)
    (b : RequestBody) (k : String) (j : Json)
    (hm : inp.method = "POST") (hb : rt.parseBody inp.rawBody = .ok b)
    (hk : inp.envApiKey = some k) (hk2 : k ≠ "")
    (hu : inp.upstream.ok = true)
    (hj : rt.parseContent inp.upstream.content = .ok j) :
    (apiPluginHandler rt inp).status = 200 ∧
    (apiPluginHandler rt inp).body = Json.stringify j := by
  constructor <;> simp [apiPluginHandler, hm, hb, hk, hk2, generateProfile, hu, hj]

/-- Closed instance of the C4 theorem: the upstream returns the object
with single key foo and the response body is its serialization. -/
theorem upstream_success_returns_parsed_json_inst :
    (apiPluginHandler sampleRuntime
      { method := "POST", rawBody := sampleRawBody, envApiKey := some "sk-test",
        upstream := { status := 200, text := "", content := fooContent } }).status = 200 ∧
    (apiPluginHandler sampleRuntime
      { method := "POST", rawBody := sampleRawBody, envApiKey := some "sk-test",
        upstream := { status := 200, text := "", content := fooContent } }).body
      = Json.stringify fooJson :=
  upstream_success_returns_parsed_json sampleRuntime
    { method := "POST", rawBody := sampleRawBody, envApiKey := some "sk-test",
      upstream := { status := 200, text := "", content := fooContent } }
    sampleBody "sk-test" fooJson rfl (by simp [sampleRuntime]) rfl (by decide)
    (by decide) (by simp [sampleRuntime, fooContent, profileContent])

/-- C5: on a POST request whose upstream call succeeds but whose
message content is not valid JSON, the parse error propagates: no 200
is produced and the caller gets a 500 whose `{error}` body carries the
parse failure message. -/
theorem content_parse_error_propagates (rt : JsRuntime) (inp : HandlerInput)
    (b : RequestBody) (k : String) (e : String)
    (hm : inp.method = "POST") (hb : rt.parseBody inp.rawBody = .ok b)
    (hk : inp.envApiKey = some k) (hk2 : k ≠ "")
    (hu : inp.upstream.ok = true)
    (hj : rt.parseContent inp.upstream.content = .error e) :
    (apiPluginHandler rt inp).status = 500 ∧
    (apiPluginHandler rt inp).body = errorBody e ∧
    (apiPluginHandler rt inp).status ≠ 200 := by
  refine ⟨?_, ?_, ?_⟩ <;>
    simp [apiPluginHandler, hm, hb, hk, hk2, generateProfile, hu, hj]

/-- Closed instance of the C5 theorem at a non-JSON upstream content. -/
theorem content_parse_error_propagates_inst :
    (apiPluginHandler sampleRuntime
      { method := "POST", rawBody := sampleRawBody, envApiKey := some "sk-test",
        upstream := { status := 200, text := "", content := "not json" } }).status = 500 ∧
    (apiPluginHandler sampleRuntime
      { method := "POST", rawBody := sampleRawBody, envApiKey := some "sk-test",
        upstream := { status := 200, text := "", content := "not json" } }).body
      = errorBody "Unexpected token \x27n\x27, \"not json\" is not valid JSON" := by
  have h := content_parse_error_propagates sampleRuntime
    { method := "POST", rawBody := sampleRawBody, envApiKey := some "sk-test",
      upstream := { status := 200, text := "", content := "not json" } }
    sampleBody "sk-test" "Unexpected token \x27n\x27, \"not json\" is not valid JSON"
    rfl (by simp [sampleRuntime]) rfl (by decide) (by decide)
    (by simp [sampleRuntime, fooContent, profileContent])
  exact ⟨h.1, h.2.1⟩

/-- C2 counterexample: the POST request carrying exactly the spec body
(preferences `{energy:[20,80], weight:[15,100], age:[0,3]}`, empty
liked and disliked lists) with an upstream call that succeeds (status
200, content that parses) can return a 200 whose JSON object has the
single key `foo` instead of exactly
`ownerTitle, ownerProfile, recommendedBreeds, dogProfiles`: the proxy
never inspects the keys of the parsed upstream value. -/
theorem spec_body_key_set_counterexample :
    sampleRuntime.parseBody sampleRawBody = .ok sampleBody ∧
    ({ status := 200, text := "", content := fooContent } : UpstreamResponse).ok = true ∧
    sampleRuntime.parseContent fooContent = .ok fooJson ∧
    (apiPluginHandler sampleRuntime
      { method := "POST", rawBody := sampleRawBody, envApiKey := some "sk-test",
        upstream := { status := 200, text := "", content := fooContent } }).status = 200 ∧
    (apiPluginHandler sampleRuntime
      { method := "POST", rawBody := sampleRawBody, envApiKey := some "sk-test",
        upstream := { status := 200, text := "", content := fooContent } }).body
      = Json.stringify fooJson ∧
    Json.keys fooJson ≠ ["ownerTitle", "ownerProfile", "recommendedBreeds", "dogProfiles"] := by
  refine ⟨?_, ?_, ?_, ?_, ?_, ?_⟩
  · simp [sampleRuntime]
  · decide
  · simp [sampleRuntime, fooContent, profileContent]
  · simp [apiPluginHandler, sampleRuntime, generateProfile, fooContent, profileContent,
      sampleRawBody, UpstreamResponse.ok]
  · simp [apiPluginHandler, sampleRuntime, generateProfile, fooContent, profileContent,
      sampleRawBody, UpstreamResponse.ok]
  · decide

/-- C2 (amended): for the spec body, a successful upstream call whose
parsed content is an object with exactly the keys
`ownerTitle, ownerProfile, recommendedBreeds, dogProfiles` — the shape
the prompt demands — yields a 200 whose body is exactly the
serialization of that object, hence contains exactly those keys and no
others. -/
theorem spec_body_returns_profile_keys (rt : JsRuntime) (inp : HandlerInput)
    (k : String) (j : Json)
    (hm : inp.method = "POST") (hb : rt.parseBody inp.rawBody = .ok sampleBody)
    (hk : inp.envApiKey = some k) (hk2 : k ≠ "")
    (hu : inp.upstream.ok = true)
    (hj : rt.parseContent inp.upstream.content = .ok j)
    (hkeys : Json.keys j = ["ownerTitle", "ownerProfile", "recommendedBreeds", "dogProfiles"]) :
    (apiPluginHandler rt inp).status = 200 ∧
    (apiPluginHandler rt inp).body = Json.stringify j ∧
    Json.keys j = ["ownerTitle", "ownerProfile", "recommendedBreeds", "dogProfiles"] := by
  refine ⟨?_, ?_, hkeys⟩ <;>
    simp [apiPluginHandler, hm, hb, hk, hk2, generateProfile, hu, hj]

/-- Closed instance of the amended C2 theorem at a compliant upstream
reply. -/
theorem spec_body_returns_profile_keys_inst :
    (apiPluginHandler sampleRuntime
      { method := "POST", rawBody := sampleRawBody, envApiKey := some "sk-test",
        upstream := { status := 200, text := "", content := profileContent } }).status = 200 ∧
    (apiPluginHandler sampleRuntime
      { method := "POST", rawBody := sampleRawBody, envApiKey := some "sk-test",
        upstream := { status := 200, text := "", content := profileContent } }).body
      = Json.stringify profileJson ∧
    Json.keys profileJson
      = ["ownerTitle", "ownerProfile", "recommendedBreeds", "dogProfiles"] :=
  spec_body_returns_profile_keys sampleRuntime
    { method := "POST", rawBody := sampleRawBody, envApiKey := some "sk-test",
      upstream := { status := 200, text := "", content := profileContent } }
    "sk-test" profileJson rfl (by simp [sampleRuntime]) rfl (by decide) (by decide)
    (by simp [sampleRuntime]) (by decide)

/-- C6: every compatibility score lies in [0, 100] (the lower bound is
inherent in the Nat-valued score), and turning one non-matching
attribute of an otherwise-fixed candidate into a matching one never
decreases the score. -/
theorem score_bounded_and_monotone (p : PreferenceSummary) (c c' : CandidateDog)
    (a : ScoreAttr)
    (h1 : attrMatches p c a = false) (h2 : attrMatches p c' a = true)
    (h3 : ∀ b, b ≠ a → attrMatches p c' b = attrMatches p c b) :
    (∀ q d, compatibilityScore q d ≤ 100) ∧
    compatibilityScore p c ≤ compatibilityScore p c' := by
  constructor
  · intro q d
    exact Nat.min_le_left _ _
  · apply min_le_min (le_refl 100)
    apply filterSum_mono
    intro b hb
    by_cases hba : b = a
    · subst hba
      rw [h1] at hb
      exact absurd hb (by decide)
    · rw [h3 b hba]
      exact hb

/-- A preference summary for the scorer instance. -/
def samplePref : PreferenceSummary :=
  { breed := "Beagle", size := "small", ageMin := 1, ageMax := 5,
    weightMin := 10, weightMax := 30, good_with_cats := true,
    good_with_kids := true, is_rescue := false }

/-- A candidate that misses the preferred breed. -/
def sampleCand : CandidateDog :=
  { breed := "Poodle", size := "small", age := 3, weight := 20,
    good_with_cats := true, good_with_kids := true, is_rescue := false }

/-- The same candidate with the breed changed to the preferred one. -/
def sampleCandMatched : CandidateDog :=
  { sampleCand with breed := "Beagle" }

/-- Closed instance of the C6 theorem: fixing the breed mismatch does
not lower the score, and the score stays within the bound. -/
theorem score_bounded_and_monotone_inst :
    compatibilityScore samplePref sampleCand ≤ 100 ∧
    compatibilityScore samplePref sampleCand
      ≤ compatibilityScore samplePref sampleCandMatched := by
  have h := score_bounded_and_monotone samplePref sampleCand sampleCandMatched
    ScoreAttr.breed (by decide) (by decide)
    (by intro b hb; cases b <;> first | rfl | exact absurd rfl hb)
  exact ⟨h.1 samplePref sampleCand, h.2⟩

/-- The deck is not exhausted while the current index is inside the
deck. -/
theorem done_false_of_lt (s : SwipeState) (h : s.currentIndex < s.dogs.length) :
    s.done = false := by
  simp [SwipeState.done]
  omega

/-- Each swipe step only ever appends to the two result lists. -/
theorem applySwipes_extends (ds : List SwipeDirection) (s : SwipeState) :
    ∃ t1 t2, (applySwipes ds s).liked = s.liked ++ t1 ∧
      (applySwipes ds s).disliked = s.disliked ++ t2 := by
  induction ds generalizing s with
  | nil => exact ⟨[], [], by simp [applySwipes], by simp [applySwipes]⟩
  | cons d rest ih =>
      have hstep : applySwipes (d :: rest) s = applySwipes rest (swipe d s) := rfl
      obtain ⟨t1, t2, h1, h2⟩ := ih (swipe d s)
      have hsw : ∃ u1 u2, (swipe d s).liked = s.liked ++ u1 ∧
          (swipe d s).disliked = s.disliked ++ u2 := by
        by_cases hd : s.done = true
        · exact ⟨[], [], by simp [swipe, hd], by simp [swipe, hd]⟩
        · have hd' : s.done = false := by
            revert hd
            cases s.done <;> simp
          cases d
          · exact ⟨[], [s.dogs[s.currentIndex]?], by simp [swipe, hd'],
              by simp [swipe, hd']⟩
          · exact ⟨[s.dogs[s.currentIndex]?], [], by simp [swipe, hd'],
              by simp [swipe, hd']⟩
      obtain ⟨u1, u2, hu1, hu2⟩ := hsw
      exact ⟨u1 ++ t1, u2 ++ t2,
        by rw [hstep, h1, hu1, List.append_assoc],
        by rw [hstep, h2, hu2, List.append_assoc]⟩

/-- C8: while the deck is not exhausted, a right swipe appends exactly
the current dog to the liked list and leaves the disliked list alone, a
left swipe appends exactly the current dog to the disliked list and
leaves the liked list alone, and any sequence of swipes only appends to
both lists (no element is removed or modified). -/
theorem swipe_appends_current_dog (s : SwipeState)
    (h : s.currentIndex < s.dogs.length) :
    ((swipe .right s).liked = s.liked ++ [some s.dogs[s.currentIndex]] ∧
     (swipe .right s).disliked = s.disliked) ∧
    ((swipe .left s).disliked = s.disliked ++ [some s.dogs[s.currentIndex]] ∧
     (swipe .left s).liked = s.liked) ∧
    (∀ ds : List SwipeDirection, ∃ t1 t2,
      (applySwipes ds s).liked = s.liked ++ t1 ∧
      (applySwipes ds s).disliked = s.disliked ++ t2) := by
  have hd := done_false_of_lt s h
  have hget : s.dogs[s.currentIndex]? = some s.dogs[s.currentIndex] :=
    List.getElem?_eq_getElem h
  refine ⟨⟨?_, ?_⟩, ⟨?_, ?_⟩, fun ds => applySwipes_extends ds s⟩ <;>
    simp [swipe, hd, hget]

/-- A concrete dog record for the swipe instances. -/
def sampleDog : BackendDog :=
  { id := 1, name := "Charlie", breed := "Golden Retriever", size := "large",
    age_years := 2, weight_lbs := 68, color := "golden", description := some "Loves fetch",
    sex := "male", coat_length := "medium", is_rescue := true,
    good_with_cats := true, good_with_kids := true,
    image_url := none, created_at := "2024-01-01", updated_at := "2024-01-01" }

/-- A swipe deck showing its first card, with empty result lists. -/
def sampleDeck : SwipeState :=
  { dogs := [sampleDog], currentIndex := 0, offsetX := 0, isDragging := false,
    liked := [], disliked := [] }

/-- Closed instance of the C8 theorem on a one-card deck. -/
theorem swipe_appends_current_dog_inst :
    (swipe .right sampleDeck).liked = [some sampleDog] ∧
    (swipe .right sampleDeck).disliked = [] ∧
    (swipe .left sampleDeck).disliked = [some sampleDog] ∧
    (swipe .left sampleDeck).liked = [] := by
  have h := swipe_appends_current_dog sampleDeck (by decide)
  exact ⟨h.1.1, h.1.2, h.2.1.1, h.2.1.2⟩

/-- C10: when a drag gesture ends (`handleEnd` with a drag in
progress), a swipe is committed exactly when the absolute horizontal
offset strictly exceeds 100 pixels — to the right when the offset is
positive, to the left when it is negative — and at 100 pixels or less
the offset snaps back to 0 with both result lists and the current card
unchanged. -/
theorem drag_end_threshold (s : SwipeState)
    (hdrag : s.isDragging = true) (h : s.currentIndex < s.dogs.length) :
    SWIPE_THRESHOLD = 100 ∧
    (100 < s.offsetX.natAbs → 0 < s.offsetX →
      (handleEnd s).liked = s.liked ++ [some s.dogs[s.currentIndex]] ∧
      (handleEnd s).disliked = s.disliked) ∧
    (100 < s.offsetX.natAbs → s.offsetX < 0 →
      (handleEnd s).disliked = s.disliked ++ [some s.dogs[s.currentIndex]] ∧
      (handleEnd s).liked = s.liked) ∧
    (s.offsetX.natAbs ≤ 100 →
      (handleEnd s).offsetX = 0 ∧
      (handleEnd s).liked = s.liked ∧
      (handleEnd s).disliked = s.disliked ∧
      (handleEnd s).currentIndex = s.currentIndex) := by
  have hd : SwipeState.done { s with isDragging := false } = false :=
    done_false_of_lt _ h
  have hget : s.dogs[s.currentIndex]? = some s.dogs[s.currentIndex] :=
    List.getElem?_eq_getElem h
  refine ⟨rfl, ?_, ?_, ?_⟩
  · intro hthr hpos
    constructor <;>
      simp [handleEnd, hdrag, SWIPE_THRESHOLD, hthr, hpos, swipe, hd, hget]
  · intro hthr hneg
    have hnp : ¬ 0 < s.offsetX := by omega
    constructor <;>
      simp [handleEnd, hdrag, SWIPE_THRESHOLD, hthr, hnp, swipe, hd, hget]
  · intro hle
    have hnt : ¬ SWIPE_THRESHOLD < s.offsetX.natAbs := by
      simp [SWIPE_THRESHOLD]
      omega
    refine ⟨?_, ?_, ?_, ?_⟩ <;> simp [handleEnd, hdrag, hnt]

/-- Closed instance of the C10 theorem: a drag of +150 commits a right
swipe, and by the same theorem a drag of exactly 100 would snap back. -/
theorem drag_end_threshold_inst :
    (handleEnd { sampleDeck with isDragging := true, offsetX := 150 }).liked
      = [some sampleDog] ∧
    (handleEnd { sampleDeck with isDragging := true, offsetX := 100 }).offsetX = 0 ∧
    (handleEnd { sampleDeck with isDragging := true, offsetX := 100 }).liked = [] := by
  have h1 := drag_end_threshold { sampleDeck with isDragging := true, offsetX := 150 }
    rfl (by decide)
  have h2 := drag_end_threshold { sampleDeck with isDragging := true, offsetX := 100 }
    rfl (by decide)
  refine ⟨?_, ?_, ?_⟩
  · exact ((h1.2.1 (by decide) (by decide)).1).trans rfl
  · exact (h2.2.2.2 (by decide)).1
  · exact ((h2.2.2.2 (by decide)).2.1).trans rfl

theorem strData_append (a b : String) : (a ++ b).data = a.data ++ b.data := rfl

/-- A rendered swipe entry is never the empty string: it always carries
the literal closer " energy)". -/
theorem swipedDogEntry_ne_empty (d : SwipedDog) : swipedDogEntry d ≠ "" := by
  intro hcon
  have h0 : (swipedDogEntry d).data = [] := by rw [hcon]
  rw [swipedDogEntry] at h0
  simp only [strData_append, List.append_eq_nil] at h0
  exact absurd h0.2 (by decide)

/-- For a dog in the list, the rendered liked/disliked line (with its
"None" fallback) contains the rendering of that dog. -/
theorem cs_jsOrNone {l : List SwipedDog} {d : SwipedDog} (hd : d ∈ l) :
    containsSubstr (jsOrNone (jsJoin ", " (l.map swipedDogEntry))) (swipedDogEntry d) := by
  have hne : jsJoin ", " (l.map swipedDogEntry) ≠ "" := by
    cases l with
    | nil => cases hd
    | cons x rest =>
        cases rest with
        | nil => exact swipedDogEntry_ne_empty x
        | cons y t =>
            show swipedDogEntry x ++ ", " ++ jsJoin ", " ((y :: t).map swipedDogEntry) ≠ ""
            intro hcon
            have h0 : (swipedDogEntry x ++ ", "
                ++ jsJoin ", " ((y :: t).map swipedDogEntry)).data = [] := by rw [hcon]
            simp only [strData_append, List.append_eq_nil] at h0
            exact absurd h0.1.2 (by decide)
  rw [jsOrNone, if_neg hne]
  exact cs_jsJoin ", " swipedDogEntry l d hd

/-- A substring straddling the last two segments of a left-nested
append chain. -/
theorem cs_glue (a b c : String) : containsSubstr ((a ++ b) ++ c) (b ++ c) := by
  rw [String.append_assoc]
  exact cs_left a (cs_self (b ++ c))

/-- C7: the prompt `generateProfile` sends upstream embeds both energy
bounds, both weight bounds, the age labels selected by both age
indices, and one rendered entry (name, breed, age, weight, energy) per
liked and per disliked dog; an empty liked or disliked list is rendered
as the literal text "None". -/
theorem prompt_embeds_request_data (body : RequestBody) :
    (∀ pc k u, (generateProfile pc body k u).promptSent = buildPrompt body) ∧
    containsSubstr (buildPrompt body) (jsNumAt body.preferences.energy 0) ∧
    containsSubstr (buildPrompt body) (jsNumAt body.preferences.energy 1) ∧
    containsSubstr (buildPrompt body) (jsNumAt body.preferences.weight 0) ∧
    containsSubstr (buildPrompt body) (jsNumAt body.preferences.weight 1) ∧
    containsSubstr (buildPrompt body) (jsLabelAt AGE_LABELS body.preferences.age 0) ∧
    containsSubstr (buildPrompt body) (jsLabelAt AGE_LABELS body.preferences.age 1) ∧
    (∀ d ∈ body.results.liked, containsSubstr (buildPrompt body) (swipedDogEntry d)) ∧
    (∀ d ∈ body.results.disliked, containsSubstr (buildPrompt body) (swipedDogEntry d)) ∧
    (body.results.liked = [] → containsSubstr (buildPrompt body) "Liked: None") ∧
    (body.results.disliked = [] → containsSubstr (buildPrompt body) "\nDisliked: None") := by
  refine ⟨fun pc k u => rfl, ?_, ?_, ?_, ?_, ?_, ?_, ?_, ?_, ?_, ?_⟩
  · simp only [buildPrompt]
    iterate 16 apply cs_right
    exact cs_left _ (cs_self _)
  · simp only [buildPrompt]
    iterate 14 apply cs_right
    exact cs_left _ (cs_self _)
  · simp only [buildPrompt]
    iterate 12 apply cs_right
    exact cs_left _ (cs_self _)
  · simp only [buildPrompt]
    iterate 10 apply cs_right
    exact cs_left _ (cs_self _)
  · simp only [buildPrompt]
    iterate 8 apply cs_right
    exact cs_left _ (cs_self _)
  · simp only [buildPrompt]
    iterate 6 apply cs_right
    exact cs_left _ (cs_self _)
  · intro d hd
    simp only [buildPrompt]
    iterate 3 apply cs_right
    exact cs_left _ (cs_jsOrNone hd)
  · intro d hd
    simp only [buildPrompt]
    iterate 1 apply cs_right
    exact cs_left _ (cs_jsOrNone hd)
  · intro hl
    simp only [buildPrompt, hl]
    iterate 3 apply cs_right
    exact cs_glue _ "Liked: " "None"
  · intro hl
    simp only [buildPrompt, hl]
    iterate 1 apply cs_right
    exact cs_glue _ "\nDisliked: " "None"

/-- A concrete swiped dog for the prompt instance. -/
def sampleSwipedDog : SwipedDog :=
  { name := "Rex", breed := "Beagle", age := "2 yrs", weight := "25 lbs",
    energy := "High", bio := "Good boy" }

/-- A request body with no liked dogs and one disliked dog. -/
def samplePromptBody : RequestBody :=
  { preferences := { energy := [20, 80], weight := [15, 100], age := [0, 3] },
    results := { liked := [], disliked := [sampleSwipedDog] } }

/-- Closed instance of the C7 theorem: the prompt for
`samplePromptBody` carries the lower energy bound, the rendered
disliked dog, and the "None" fallback for the empty liked list. -/
theorem prompt_embeds_request_data_inst :
    (generateProfile (fun _ => Except.error "unused") samplePromptBody "sk-test"
        { status := 200, text := "", content := "" }).promptSent
      = buildPrompt samplePromptBody ∧
    containsSubstr (buildPrompt samplePromptBody)
      (jsNumAt samplePromptBody.preferences.energy 0) ∧
    containsSubstr (buildPrompt samplePromptBody) (swipedDogEntry sampleSwipedDog) ∧
    containsSubstr (buildPrompt samplePromptBody) "Liked: None" := by
  have h := prompt_embeds_request_data samplePromptBody
  exact ⟨h.1 (fun _ => Except.error "unused") "sk-test"
      { status := 200, text := "", content := "" },
    h.2.1,
    h.2.2.2.2.2.2.2.2.1 sampleSwipedDog (by simp [samplePromptBody]),
    h.2.2.2.2.2.2.2.2.2.1 rfl⟩
